import Mathlib

set_option maxHeartbeats 1000000

/-!
Verification development for the forge-editor workflow coordination core.

The definitions below are a shallow embedding of the Python sources:

* `ForgeState` and its operations embed the class `ForgeState` of
  `scripts/forge-daemon.py` (the six-phase workflow state machine with
  confirmation, design-hash reconfirmation and rollback points).
* `WizState` and the `cmd_...` functions embed the protocol-based validation
  commands of `scripts/forge-state.py` (`cmd_mark_validation`,
  `cmd_check_deps`, `cmd_verify_protocol`) together with the static
  `WORKFLOW_PROTOCOLS` table.
* `pushWorkflow` / `popWorkflow` embed the `push-workflow` / `pop-workflow`
  commands of `scripts/forge-state-daemon.py` (the nested workflow stack).
* `FsOp` traces embed the file operations performed by the two state-saving
  routines (`ForgeState._save` and `ForgeStateDaemon.save_state`).

Conventions: Python timestamps (`time.time()`, ISO strings) are passed in as
explicit `now` parameters; the SHA-256 fingerprint `compute_hash` is passed in
as an abstract function `hashFn : String → String` since the claims only
depend on equality of fingerprints; every mutating operation returns, besides
its result and the new state, a `Bool` recording whether the Python code
reached a `_save` / `save_state` call (persistence happened).
-/

/-- One entry of the `checkpoints` list of the daemon state: the dict
`{phase, agent, ts}` appended by `ForgeState.checkpoint`. -/
structure CheckpointRec where
  phase : Nat
  agent : String
  ts : Nat
deriving DecidableEq

/-- One entry of the `rollback_points` list: the dict
`{phase, description, ts, git_sha}` appended by `ForgeState.add_rollback_point`. -/
structure RollbackPoint where
  phase : Nat
  description : String
  ts : Nat
  git_sha : Option String
deriving DecidableEq

/-- The persisted state dict of `scripts/forge-daemon.py` (`ForgeState.state`).
The `workspace_root` field is omitted: it is only used for ownership checks at
load time, which no claim concerns. -/
structure ForgeState where
  forge_active : Bool
  phase : Nat
  confirmed : Bool
  checkpoints : List CheckpointRec
  design_hash : Option String
  design_confirmed_at : Option Nat
  requires_reconfirmation : Bool
  rollback_points : List RollbackPoint
deriving DecidableEq

/-- `MAX_PHASE` of `scripts/forge-daemon.py`. -/
def MAX_PHASE : Nat := 5

/-- The `agent` field of the static `PHASES` table of `scripts/forge-daemon.py`
(indices 0..5; other indices are unreachable, the Python dict has no such key). -/
def phaseAgent : Nat → String
  | 0 => "forge:input-agent"
  | 1 => "forge:analysis-agent"
  | 2 => "forge:design-agent"
  | 3 => "forge:preview-agent"
  | 4 => "forge:execute-agent"
  | 5 => "forge:validate-agent"
  | _ => ""

/-- Result of `ForgeState.checkpoint`, abstracting the returned dict: the four
failure dicts (`success: False` with the respective error message) and the two
success dicts (`advanced: True` with from/to phases, or `completed: True`). -/
inductive CkptResult where
  | notActive
  | agentMismatch (expected : String)
  | confirmationRequired
  | reconfirmationRequired
  | advanced (fromPhase toPhase : Nat)
  | completed
deriving DecidableEq

/-- Result of `ForgeState.confirm`: the `success: False` wrong-phase dict or
the `success: True` dict. -/
inductive ConfirmResult where
  | wrongPhase
  | ok
deriving DecidableEq

/-- Result dict of `ForgeState.set_design_hash` (the `hash`, `changed` and
`requires_reconfirmation` fields of the returned dict). -/
structure DesignHashResult where
  hash : String
  changed : Bool
  requiresReconfirmation : Bool
deriving DecidableEq

/-- Result of `ForgeState.set_phase`: out-of-bounds error or success. -/
inductive SetPhaseResult where
  | outOfRange
  | ok (phase : Nat)
deriving DecidableEq

/-- The fresh state built by `ForgeState._init_state`. -/
def initForgeState : ForgeState :=
  { forge_active := false
    phase := 0
    confirmed := false
    checkpoints := []
    design_hash := none
    design_confirmed_at := none
    requires_reconfirmation := false
    rollback_points := [] }

/-- `ForgeState.activate`: re-activates and resets every field, then saves. -/
def ForgeState.activate (s : ForgeState) : ForgeState × Bool :=
  ({ s with
      forge_active := true
      phase := 0
      confirmed := false
      checkpoints := []
      design_hash := none
      design_confirmed_at := none
      requires_reconfirmation := false
      rollback_points := [] }, true)

/-- `ForgeState.deactivate`: clears `forge_active`, then saves. -/
def ForgeState.deactivate (s : ForgeState) : ForgeState × Bool :=
  ({ s with forge_active := false }, true)

/-- `ForgeState.confirm`: only valid at phase 4 (Execute); clears a pending
`requires_reconfirmation`, sets `confirmed` and stamps the confirmation time. -/
def ForgeState.confirm (s : ForgeState) (now : Nat) : ConfirmResult × ForgeState × Bool :=
  if s.phase ≠ 4 then (.wrongPhase, s, false)
  else
    let s1 := if s.requires_reconfirmation = true then
        { s with requires_reconfirmation := false } else s
    (.ok, { s1 with confirmed := true, design_confirmed_at := some now }, true)

/-- `ForgeState.set_design_hash`: stores the fingerprint of the design content;
if a prior non-empty fingerprint exists, differs, and the workflow was already
confirmed (Python: `if old_hash and old_hash != new_hash and confirmed`), flips
`requires_reconfirmation := true` and `confirmed := false`. The `changed` field
of the result is `old_hash is not None and old_hash != new_hash`. -/
def ForgeState.set_design_hash (hashFn : String → String) (s : ForgeState)
    (design_content : String) : DesignHashResult × ForgeState × Bool :=
  let new_hash := hashFn design_content
  let flip : Bool :=
    match s.design_hash with
    | none => false
    | some h => if h = "" then false else if h = new_hash then false else s.confirmed
  let changed : Bool :=
    match s.design_hash with
    | none => false
    | some h => if h = new_hash then false else true
  let s1 := if flip = true then
      { s with requires_reconfirmation := true, confirmed := false } else s
  let s2 := { s1 with design_hash := some new_hash }
  ({ hash := new_hash
     changed := changed
     requiresReconfirmation := s2.requires_reconfirmation }, s2, true)

/-- `ForgeState.add_rollback_point`: appends a rollback point stamped with the
current phase, then saves. -/
def ForgeState.add_rollback_point (s : ForgeState) (description : String)
    (git_sha : Option String) (now : Nat) : ForgeState × Bool :=
  let point : RollbackPoint :=
    { phase := s.phase, description := description, ts := now, git_sha := git_sha }
  ({ s with rollback_points := s.rollback_points ++ [point] }, true)

/-- `ForgeState.checkpoint`: validates activity, the authorized agent for the
current phase, and at the Execute phase (4) the confirmation flags; on success
appends a checkpoint record and either advances the phase or, at `MAX_PHASE`,
deactivates the workflow and reports completion. Failure paths return before
any mutation and before `_save`. -/
def ForgeState.checkpoint (s : ForgeState) (agent : String) (now : Nat) :
    CkptResult × ForgeState × Bool :=
  if s.forge_active = false then (.notActive, s, false)
  else
    let current_phase := s.phase
    let expected_agent := phaseAgent current_phase
    if agent ≠ expected_agent then (.agentMismatch expected_agent, s, false)
    else if current_phase = 4 ∧ s.confirmed = false then (.confirmationRequired, s, false)
    else if current_phase = 4 ∧ s.requires_reconfirmation = true then
      (.reconfirmationRequired, s, false)
    else
      let cp : CheckpointRec := { phase := current_phase, agent := agent, ts := now }
      let s1 := { s with checkpoints := s.checkpoints ++ [cp] }
      if current_phase < MAX_PHASE then
        (.advanced current_phase (current_phase + 1), { s1 with phase := current_phase + 1 }, true)
      else
        (.completed, { s1 with forge_active := false }, true)

/-- `ForgeState.set_phase`: manual override, bounds-checked to `0..MAX_PHASE`;
always clears `confirmed`. Takes an `Int` since the Python argument may be
negative. -/
def ForgeState.set_phase (s : ForgeState) (phase : Int) : SetPhaseResult × ForgeState × Bool :=
  if phase < 0 ∨ phase > (MAX_PHASE : Int) then (.outOfRange, s, false)
  else (.ok phase.toNat, { s with phase := phase.toNat, confirmed := false }, true)

/-- One command of the phase state machine, as dispatched by
`ForgeDaemon.handle_command` to the `ForgeState` methods. -/
inductive ForgeOp where
  | activateOp
  | deactivateOp
  | confirmOp (now : Nat)
  | checkpointOp (agent : String) (now : Nat)
  | setDesignHashOp (hashFn : String → String) (content : String)
  | setPhaseOp (n : Int)
  | addRollbackOp (description : String) (git_sha : Option String) (now : Nat)

/-- The state reached after applying one phase-machine operation. -/
def applyOp (s : ForgeState) : ForgeOp → ForgeState
  | .activateOp => (s.activate).1
  | .deactivateOp => (s.deactivate).1
  | .confirmOp now => (s.confirm now).2.1
  | .checkpointOp agent now => (s.checkpoint agent now).2.1
  | .setDesignHashOp hashFn content => (ForgeState.set_design_hash hashFn s content).2.1
  | .setPhaseOp n => (s.set_phase n).2.1
  | .addRollbackOp d sha now => (s.add_rollback_point d sha now).1

/-- States reachable from the freshly initialized state by any sequence of
phase-machine operations. -/
inductive Reachable : ForgeState → Prop where
  | init : Reachable initForgeState
  | step {s : ForgeState} (op : ForgeOp) : Reachable s → Reachable (applyOp s op)

/-- Lookup in a string-keyed association list, modelling Python `dict.get`. -/
def alistGet {α : Type} : List (String × α) → String → Option α
  | [], _ => none
  | (k, v) :: rest, n => if k = n then some v else alistGet rest n

/-- Update or insert in a string-keyed association list, modelling Python
`dict[key] = value` (in-place update of an existing key, append otherwise). -/
def alistSet {α : Type} : List (String × α) → String → α → List (String × α)
  | [], n, v => [(n, v)]
  | (k, w) :: rest, n, v =>
    if k = n then (n, v) :: rest else (k, w) :: alistSet rest n v

/-- One validation entry of the `validations` dict of `scripts/forge-state.py`.
Keys that a given Python dict entry lacks (`verified_by`, `claimed_at` before
they are first assigned) are modelled as `none`. -/
structure ValidationSt where
  status : String
  required : Bool
  dependencies : List String
  executed_at : Option String
  passed_at : Option String
  verified_by : Option String
  claimed_at : Option String
deriving DecidableEq

/-- The part of the `scripts/forge-state.py` state document that the protocol
validation commands read and write. `workflow_id`, `current_phase`, `phases`
and the timestamp fields are omitted: `cmd_mark_validation`,
`cmd_check_deps` and `cmd_verify_protocol` never touch them. History entries
are `(action, details)` pairs; their timestamps are dropped. -/
structure WizState where
  workflow_type : String
  validations : List (String × ValidationSt)
  gates_passed : List (String × Bool)
  history : List (String × String)
deriving DecidableEq

/-- Static per-workflow-type protocol entry: `required` flag and dependency
list of one validation node (the `description` strings are dropped). -/
structure ProtoVal where
  required : Bool
  dependencies : List String
deriving DecidableEq

/-- The `GATES` list of `scripts/forge-state.py`. -/
def GATES : List String :=
  ["connectivity_planned", "component_created", "validation_passed",
   "errors_fixed", "analysis_complete"]

/-- The `WORKFLOW_PROTOCOLS` table of `scripts/forge-state.py`: for each
workflow type, its validation nodes in declaration order with their
`required` flags and `dependencies`. -/
def WORKFLOW_PROTOCOLS : List (String × List (String × ProtoVal)) :=
  [("wizard_routing",
     [("context_analysis", ⟨true, []⟩),
      ("intent_classification", ⟨true, ["context_analysis"]⟩),
      ("route_execution", ⟨true, ["intent_classification"]⟩)]),
   ("skill_creation",
     [("validate_all", ⟨true, []⟩),
      ("form_selection_audit", ⟨true, []⟩),
      ("content_quality_audit", ⟨false, ["validate_all"]⟩),
      ("functional_test", ⟨true, ["validate_all", "form_selection_audit"]⟩),
      ("plugin_test", ⟨false, ["functional_test"]⟩)]),
   ("agent_creation",
     [("validate_all", ⟨true, []⟩),
      ("form_selection_audit", ⟨true, []⟩),
      ("content_quality_audit", ⟨false, ["validate_all"]⟩),
      ("functional_test", ⟨false, ["validate_all"]⟩)]),
   ("command_creation",
     [("validate_all", ⟨true, []⟩),
      ("content_quality_audit", ⟨false, ["validate_all"]⟩),
      ("functional_test", ⟨false, ["validate_all"]⟩)]),
   ("plugin_publish",
     [("validate_all", ⟨true, []⟩),
      ("form_selection_audit", ⟨true, []⟩),
      ("content_quality_audit", ⟨true, ["validate_all"]⟩),
      ("functional_test", ⟨true, ["validate_all"]⟩),
      ("plugin_test", ⟨true, ["functional_test"]⟩),
      ("marketplace_schema", ⟨true, ["validate_all"]⟩)]),
   ("quick_fix", [("validate_all", ⟨true, []⟩)]),
   ("analyze_only",
     [("validate_all", ⟨true, []⟩),
      ("form_selection_audit", ⟨false, ["validate_all"]⟩),
      ("content_quality_audit", ⟨false, ["validate_all"]⟩)])]

/-- `get_protocol` of `scripts/forge-state.py`. -/
def get_protocol (workflow_type : String) : Option (List (String × ProtoVal)) :=
  alistGet WORKFLOW_PROTOCOLS workflow_type

/-- `create_initial_state` of `scripts/forge-state.py`, restricted to the
fields of `WizState`: every protocol node starts `pending`. -/
def create_initial_state (workflow_type : String) : WizState :=
  let validations :=
    match get_protocol workflow_type with
    | none => []
    | some protocol =>
      protocol.map (fun entry =>
        (entry.1,
         { status := "pending", required := entry.2.required,
           dependencies := entry.2.dependencies, executed_at := none,
           passed_at := none, verified_by := none, claimed_at := none : ValidationSt }))
  { workflow_type := workflow_type
    validations := validations
    gates_passed := GATES.map (fun g => (g, false))
    history := [] }

/-- `add_history` of `scripts/forge-state.py` (timestamps dropped). -/
def add_history (st : WizState) (action details : String) : WizState :=
  { st with history := st.history ++ [(action, details)] }

/-- The `AGENT_REQUIRED` allow-list inside `cmd_mark_validation`. -/
def AGENT_REQUIRED : List String :=
  ["form_selection_audit", "functional_test", "plugin_test"]

/-- The dynamically inserted validation entry for a name missing from the
protocol (`cmd_mark_validation`, dynamic-add branch). -/
def freshDynamicValidation : ValidationSt :=
  { status := "pending", required := false, dependencies := [],
    executed_at := none, passed_at := none, verified_by := none, claimed_at := none }

/-- `cmd_mark_validation` of `scripts/forge-state.py`. Returns the process
exit code (0 success, 1 failure) and the state as persisted on disk when the
process ends: the unknown-status branch exits before `save_state`, so there
the original state is returned. For `passed` on an `AGENT_REQUIRED` node
without `--from-hook`, the node is downgraded to `claimed` with
`verified_by = manual_attempt` and the command exits 1 after saving. -/
def cmd_mark_validation (st0 : WizState) (name status : String) (from_hook : Bool)
    (now : String) : Nat × WizState :=
  let st :=
    match alistGet st0.validations name with
    | some _ => st0
    | none => { st0 with validations := alistSet st0.validations name freshDynamicValidation }
  let v := (alistGet st.validations name).getD freshDynamicValidation
  if status = "executed" then
    let v1 := { v with status := "executed", executed_at := some now }
    (0, add_history { st with validations := alistSet st.validations name v1 }
          "validation_executed" name)
  else if status = "passed" then
    if name ∈ AGENT_REQUIRED ∧ from_hook = false then
      let v1 := { v with
        status := "claimed"
        claimed_at := some now
        verified_by := some "manual_attempt" }
      (1, add_history { st with validations := alistSet st.validations name v1 }
            "validation_claimed_manually" (name ++ " (blocked - requires agent)"))
    else
      let v1 := { v with
        status := "passed"
        passed_at := some now
        verified_by := some (if from_hook then "hook" else "script")
        executed_at := if v.executed_at = none then some now else v.executed_at }
      let st1 := add_history { st with validations := alistSet st.validations name v1 }
        "validation_passed" (name ++ " (via " ++ (if from_hook then "hook" else "script") ++ ")")
      let st2 :=
        if name = "validate_all" then
          add_history { st1 with gates_passed := alistSet st1.gates_passed "validation_passed" true }
            "auto_pass_gate" "validation_passed"
        else st1
      (0, st2)
  else if status = "failed" then
    let v1 := { v with
      status := "failed"
      executed_at := if v.executed_at = none then some now else v.executed_at }
    (0, add_history { st with validations := alistSet st.validations name v1 }
          "validation_failed" name)
  else
    (1, st0)

/-- The status a dependency lookup observes, modelling
`validations.get(dep, {}).get("status", "pending")`. -/
def depStatus (st : WizState) (dep : String) : String :=
  match alistGet st.validations dep with
  | some v => v.status
  | none => "pending"

/-- `cmd_check_deps` of `scripts/forge-state.py`. Returns the exit code
(0 allow, 2 blocked) and, when blocked, the collected
`(dependency, status)` pairs. An unknown validation name or an empty
dependency list exits 0 with no pairs. -/
def cmd_check_deps (st : WizState) (name : String) : Nat × List (String × String) :=
  match alistGet st.validations name with
  | none => (0, [])
  | some v =>
    if v.dependencies = [] then (0, [])
    else
      let failed_deps := v.dependencies.foldl
        (fun acc dep =>
          let dep_status := depStatus st dep
          if dep_status ≠ "passed" then acc ++ [(dep, dep_status)] else acc) []
      if failed_deps = [] then (0, []) else (2, failed_deps)

/-- `cmd_verify_protocol` of `scripts/forge-state.py`. Walks the protocol's
nodes in order, collecting required nodes with status `pending` or `executed`
into `missing` (the latter with the "(executed but not verified)" suffix) and
required `failed` nodes into `failed`; exits 2 when either list is non-empty,
0 otherwise. Statuses other than those three fall through unrecorded. -/
def cmd_verify_protocol (st : WizState) : Nat × List String × List String :=
  match get_protocol st.workflow_type with
  | none => (0, [], [])
  | some protocol =>
    let acc := protocol.foldl
      (fun (acc : List String × List String) (entry : String × ProtoVal) =>
        if entry.2.required = false then acc
        else
          let status : String :=
            match alistGet st.validations entry.1 with
            | some v => v.status
            | none => "pending"
          if status = "pending" then (acc.1 ++ [entry.1], acc.2)
          else if status = "executed" then
            (acc.1 ++ [entry.1 ++ " (executed but not verified)"], acc.2)
          else if status = "failed" then (acc.1, acc.2 ++ [entry.1])
          else acc)
      ([], [])
    if acc.1 = [] ∧ acc.2 = [] then (0, acc.1, acc.2) else (2, acc.1, acc.2)

/-- One entry of the per-session workflow stack of
`scripts/forge-state-daemon.py` (`workflow_stack:<session>` value). A missing
`resume_phase` key is modelled as `none`. -/
structure WorkflowStackEntry where
  workflow_id : String
  workflow_type : String
  current_phase : String
  suspended : Bool
  resume_phase : Option String
  started_at : String
deriving DecidableEq

/-- The new entry built by the `push-workflow` command; `now` stands for the
`int(time.time())` id suffix and the `started_at` timestamp. -/
def newStackEntry (workflow_type now : String) : WorkflowStackEntry :=
  { workflow_id := workflow_type ++ "-" ++ now
    workflow_type := workflow_type
    current_phase := "init"
    suspended := false
    resume_phase := none
    started_at := now }

/-- The `push-workflow` command: suspends the current top (recording its
phase label as `resume_phase`) and pushes a fresh unsuspended entry. The
Python list keeps the top at the end; here the head of the list is the top. -/
def pushWorkflow (stack : List WorkflowStackEntry) (workflow_type now : String) :
    List WorkflowStackEntry :=
  let stack1 :=
    match stack with
    | [] => []
    | top :: rest =>
      { top with suspended := true, resume_phase := some top.current_phase } :: rest
  newStackEntry workflow_type now :: stack1

/-- The `pop-workflow` command: `none` on an empty stack (the
`"Stack empty"` error); otherwise removes the top, clears the new top's
`suspended` flag, and returns the popped entry, the resumed entry's
`resume_phase`, and the remaining stack. -/
def popWorkflow (stack : List WorkflowStackEntry) :
    Option (WorkflowStackEntry × Option String × List WorkflowStackEntry) :=
  match stack with
  | [] => none
  | popped :: rest =>
    match rest with
    | [] => some (popped, none, [])
    | parent :: rest1 =>
      some (popped, parent.resume_phase, { parent with suspended := false } :: rest1)

/-- N pushes in order onto the empty stack. -/
def pushMany (types : List String) (now : String) : List WorkflowStackEntry :=
  types.foldl (fun stack t => pushWorkflow stack t now) []

/-- N pops: the sequence of `workflow_type` values reported by the pops (the
`popped` field of each response) and the final stack. -/
def popMany : Nat → List WorkflowStackEntry → List String × List WorkflowStackEntry
  | 0, stack => ([], stack)
  | n + 1, stack =>
    match popWorkflow stack with
    | none => ([], stack)
    | some (popped, _, rest) =>
      let r := popMany n rest
      (popped.workflow_type :: r.1, r.2)

/-- The `workflow_type` fields of a stack, top first. -/
def stackTypes (stack : List WorkflowStackEntry) : List String :=
  stack.map (fun e => e.workflow_type)

/-- A file-system operation performed while persisting state. -/
inductive FsOp where
  | write (path content : String)
  | rename (src dst : String)
deriving DecidableEq

/-- Target of `ForgeState._save` in `scripts/forge-daemon.py`. -/
def FORGE_STATE_FILE : String := ".claude/local/forge-state.json"

/-- Target of `ForgeStateDaemon.save_state` in `scripts/forge-state-daemon.py`. -/
def DAEMON_STATE_FILE : String := ".claude/local/daemon-state.json"

/-- The temporary path `STATE_FILE.with_suffix res tmp` used by
`ForgeStateDaemon.save_state`. -/
def DAEMON_STATE_TMP : String := ".claude/local/daemon-state.tmp"

/-- File operations performed by `ForgeState._save` (forge-daemon.py, lines
117-120): it opens the state file itself for writing and dumps the JSON
document directly into it. -/
def forgeDaemonSaveOps (serialized : String) : List FsOp :=
  [FsOp.write FORGE_STATE_FILE serialized]

/-- File operations performed by `ForgeStateDaemon.save_state`
(forge-state-daemon.py, lines 93-102): write the document to the temporary
path, then rename it over the state file. -/
def stateDaemonSaveOps (serialized : String) : List FsOp :=
  [FsOp.write DAEMON_STATE_TMP serialized,
   FsOp.rename DAEMON_STATE_TMP DAEMON_STATE_FILE]

/-- Whether an operation writes into the target path directly. -/
def writesDirectly (target : String) : FsOp → Bool
  | FsOp.write p _ => p == target
  | FsOp.rename _ _ => false

/-- A save trace is an atomic replace of `target` when it never opens the
target itself for writing and its last step renames some other path over the
target, so that at no intermediate point is the existing file partially
overwritten. -/
def isAtomicReplace (target : String) (ops : List FsOp) : Bool :=
  (ops.all (fun op => !(writesDirectly target op))) &&
  (match ops.getLast? with
   | some (FsOp.rename _ dst) => dst == target
   | _ => false)

/-- The status recorded for a named validation node, `none` when absent. -/
def markedStatus (st : WizState) (name : String) : Option String :=
  (alistGet st.validations name).map (fun v => v.status)

/-- The `verified_by` recorded for a named validation node. -/
def markedVerifiedBy (st : WizState) (name : String) : Option String :=
  (alistGet st.validations name).bind (fun v => v.verified_by)

/-- The `required` flag recorded for a named validation node. -/
def markedRequired (st : WizState) (name : String) : Option Bool :=
  (alistGet st.validations name).map (fun v => v.required)

/-- A sample daemon state sitting unconfirmed at the Execute phase (4), with a
pending reconfirmation. -/
def sampleExecState : ForgeState :=
  { forge_active := true
    phase := 4
    confirmed := false
    checkpoints := []
    design_hash := none
    design_confirmed_at := none
    requires_reconfirmation := true
    rollback_points := [] }

/-- A sample daemon state confirmed at the Execute phase with a stored design
fingerprint. -/
def sampleConfirmedState : ForgeState :=
  { forge_active := true
    phase := 4
    confirmed := true
    checkpoints := []
    design_hash := some "stored"
    design_confirmed_at := some 1
    requires_reconfirmation := false
    rollback_points := [] }

/-- The state right after `activate`. -/
def activatedState : ForgeState := (initForgeState.activate).1

/-- The freshly initialized `skill_creation` workflow. -/
def skillCreationInit : WizState := create_initial_state "skill_creation"

/-- The `functional_test` node of the fresh `skill_creation` workflow. -/
def functionalTestInitVal : ValidationSt :=
  { status := "pending", required := true,
    dependencies := ["validate_all", "form_selection_audit"],
    executed_at := none, passed_at := none, verified_by := none, claimed_at := none }

/-- A `skill_creation` workflow in which `validate_all` and `functional_test`
were passed through the hook path and a manual `mark-validation passed` on
`form_selection_audit` was downgraded to `claimed` by the anti-bypass rule. -/
def claimedBypassState : WizState :=
  (cmd_mark_validation
    (cmd_mark_validation
      (cmd_mark_validation skillCreationInit "validate_all" "passed" true "t1").2
      "form_selection_audit" "passed" false "t2").2
    "functional_test" "passed" true "t3").2

/-- Sample stack entries used to instantiate the stack theorems. -/
def sampleEntryA : WorkflowStackEntry :=
  { workflow_id := "child-9", workflow_type := "child", current_phase := "init"
    suspended := false, resume_phase := none, started_at := "9" }

/-- A suspended parent entry below `sampleEntryA`. -/
def sampleEntryB : WorkflowStackEntry :=
  { workflow_id := "parent-3", workflow_type := "parent", current_phase := "design"
    suspended := true, resume_phase := some "design", started_at := "3" }

/-! Helper lemmas. -/

theorem alistGet_alistSet_same {α : Type} (l : List (String × α)) (n : String) (v : α) :
    alistGet (alistSet l n v) n = some v := by
  induction l with
  | nil => simp [alistSet, alistGet]
  | cons kv rest ih =>
      obtain ⟨k, w⟩ := kv
      by_cases hk : k = n
      · simp [alistSet, alistGet, hk]
      · simp [alistSet, alistGet, hk, ih]

theorem applyOp_mutex (s : ForgeState) (op : ForgeOp)
    (h : (s.requires_reconfirmation && s.confirmed) = false) :
    ((applyOp s op).requires_reconfirmation && (applyOp s op).confirmed) = false := by
  cases op with
  | activateOp => simp [applyOp, ForgeState.activate]
  | deactivateOp => simpa [applyOp, ForgeState.deactivate] using h
  | confirmOp now =>
      simp only [applyOp, ForgeState.confirm]
      split
      · exact h
      · split <;> simp_all
  | checkpointOp agent now =>
      simp only [applyOp, ForgeState.checkpoint]
      split
      · exact h
      · split
        · exact h
        · split
          · exact h
          · split
            · exact h
            · split <;> simpa using h
  | setDesignHashOp hashFn content =>
      simp only [applyOp, ForgeState.set_design_hash]
      split <;> simp_all
  | setPhaseOp n =>
      simp only [applyOp, ForgeState.set_phase]
      split
      · exact h
      · simp
  | addRollbackOp d sha now =>
      simpa [applyOp, ForgeState.add_rollback_point] using h

/-! Claim theorems. -/

/-- C6: in every state reachable from the initial workflow state by any
sequence of phase-machine operations (activate, deactivate, confirm,
checkpoint, set_design_hash, set_phase, add_rollback_point), the flags
`requires_reconfirmation` and `confirmed` are never both true. -/
theorem reachable_confirm_reconfirm_mutex (s : ForgeState) (h : Reachable s) :
    (s.requires_reconfirmation && s.confirmed) = false := by
  induction h with
  | init => rfl
  | step op _ ih => exact applyOp_mutex _ op ih

theorem reachable_confirm_reconfirm_mutex_witness :
    ((applyOp initForgeState ForgeOp.activateOp).requires_reconfirmation &&
      (applyOp initForgeState ForgeOp.activateOp).confirmed) = false :=
  reachable_confirm_reconfirm_mutex _ (Reachable.step ForgeOp.activateOp Reachable.init)

/-- C9 counterexample: `ForgeState._save` of `scripts/forge-daemon.py` does
not perform an atomic replace — it opens the state file itself for writing,
so a crash mid-write can leave the existing file partially overwritten. -/
theorem forgeDaemon_save_not_atomic_replace :
    isAtomicReplace FORGE_STATE_FILE (forgeDaemonSaveOps "serialized-state") = false := by
  decide

/-- C9 amended: `ForgeStateDaemon.save_state` of `scripts/forge-state-daemon.py`
does serialize by atomic replace — it writes the document to a temporary path
and then renames that file over the state file, never writing the target
directly. -/
theorem stateDaemon_save_atomic_replace (serialized : String) :
    isAtomicReplace DAEMON_STATE_FILE (stateDaemonSaveOps serialized) = true := rfl

/-- C1: with an active workflow at the Execute phase (4), a `checkpoint` by the
authorized execute agent while `confirmed` is false fails with the
confirmation error and leaves the state (hence the phase) unchanged; `confirm`
fails at any other phase, and after a successful `confirm` (which sets
`confirmed`) the identical `checkpoint` call succeeds and advances to phase 5. -/
theorem execute_confirmation_gate (s sother : ForgeState) (now1 now2 now3 : Nat)
    (hact : s.forge_active = true) (hph : s.phase = 4) (hconf : s.confirmed = false)
    (hother : sother.phase ≠ 4) :
    (s.checkpoint "forge:execute-agent" now1).1 = CkptResult.confirmationRequired ∧
    (s.checkpoint "forge:execute-agent" now1).2.1 = s ∧
    (sother.confirm now2).1 = ConfirmResult.wrongPhase ∧
    (s.confirm now2).1 = ConfirmResult.ok ∧
    ((s.confirm now2).2.1).confirmed = true ∧
    (((s.confirm now2).2.1).checkpoint "forge:execute-agent" now3).1 =
      CkptResult.advanced 4 5 ∧
    ((((s.confirm now2).2.1).checkpoint "forge:execute-agent" now3).2.1).phase = 5 := by
  refine ⟨?_, ?_, ?_, ?_, ?_, ?_, ?_⟩ <;>
    by_cases hrr : s.requires_reconfirmation = true <;>
      simp [ForgeState.checkpoint, ForgeState.confirm, phaseAgent, MAX_PHASE,
        hact, hph, hconf, hother, hrr]

theorem execute_confirmation_gate_witness :
    (sampleExecState.checkpoint "forge:execute-agent" 10).1 =
      CkptResult.confirmationRequired ∧
    (sampleExecState.checkpoint "forge:execute-agent" 10).2.1 = sampleExecState ∧
    (initForgeState.confirm 11).1 = ConfirmResult.wrongPhase ∧
    (sampleExecState.confirm 11).1 = ConfirmResult.ok ∧
    ((sampleExecState.confirm 11).2.1).confirmed = true ∧
    (((sampleExecState.confirm 11).2.1).checkpoint "forge:execute-agent" 12).1 =
      CkptResult.advanced 4 5 ∧
    ((((sampleExecState.confirm 11).2.1).checkpoint "forge:execute-agent" 12).2.1).phase = 5 :=
  execute_confirmation_gate sampleExecState initForgeState 10 11 12 rfl rfl rfl (by decide)

/-- C2: on an active workflow, a `checkpoint` with the wrong agent leaves the
phase unchanged; with the authorized agent and (at the Execute phase) the
confirmation preconditions, a `checkpoint` below `MAX_PHASE` advances the
phase by exactly one (reporting `advanced`), so the observed phases of a
correct run climb strictly from 0; and the `checkpoint` at `MAX_PHASE`
reports completion and deactivates the workflow instead of advancing. -/
theorem phase_monotonicity (s : ForgeState) (agent : String) (now : Nat)
    (hact : s.forge_active = true) :
    (agent ≠ phaseAgent s.phase → ((s.checkpoint agent now).2.1).phase = s.phase) ∧
    (agent = phaseAgent s.phase → s.phase < MAX_PHASE →
      (s.phase = 4 → s.confirmed = true ∧ s.requires_reconfirmation = false) →
      (s.checkpoint agent now).1 = CkptResult.advanced s.phase (s.phase + 1) ∧
      ((s.checkpoint agent now).2.1).phase = s.phase + 1) ∧
    (agent = phaseAgent s.phase → s.phase = MAX_PHASE →
      (s.checkpoint agent now).1 = CkptResult.completed ∧
      ((s.checkpoint agent now).2.1).forge_active = false ∧
      ((s.checkpoint agent now).2.1).phase = s.phase) := by
  refine ⟨fun hne => ?_, fun heq hlt hexec => ?_, fun heq h5 => ?_⟩
  · simp [ForgeState.checkpoint, hact, hne]
  · by_cases h4 : s.phase = 4
    · obtain ⟨hc, hr⟩ := hexec h4
      simp [ForgeState.checkpoint, MAX_PHASE, hact, heq, h4, hc, hr]
    · simp [ForgeState.checkpoint, hact, heq, h4, hlt]
  · simp [ForgeState.checkpoint, hact, heq, h5, MAX_PHASE]

theorem phase_monotonicity_witness :
    ("forge:input-agent" ≠ phaseAgent activatedState.phase →
      ((activatedState.checkpoint "forge:input-agent" 0).2.1).phase = activatedState.phase) ∧
    ("forge:input-agent" = phaseAgent activatedState.phase →
      activatedState.phase < MAX_PHASE →
      (activatedState.phase = 4 →
        activatedState.confirmed = true ∧ activatedState.requires_reconfirmation = false) →
      (activatedState.checkpoint "forge:input-agent" 0).1 =
        CkptResult.advanced activatedState.phase (activatedState.phase + 1) ∧
      ((activatedState.checkpoint "forge:input-agent" 0).2.1).phase =
        activatedState.phase + 1) ∧
    ("forge:input-agent" = phaseAgent activatedState.phase →
      activatedState.phase = MAX_PHASE →
      (activatedState.checkpoint "forge:input-agent" 0).1 = CkptResult.completed ∧
      ((activatedState.checkpoint "forge:input-agent" 0).2.1).forge_active = false ∧
      ((activatedState.checkpoint "forge:input-agent" 0).2.1).phase = activatedState.phase) :=
  phase_monotonicity activatedState "forge:input-agent" 0 rfl

/-- C10: every failing `checkpoint` call — workflow inactive, agent mismatch,
confirmation missing at the Execute phase, or reconfirmation required — leaves
the entire workflow state unchanged (no checkpoint record appended, flags
untouched) and does not reach `_save` (no persistence). -/
theorem checkpoint_failure_no_mutation (s : ForgeState) (agent : String) (now : Nat)
    (hfail : s.forge_active = false ∨ agent ≠ phaseAgent s.phase ∨
      (s.phase = 4 ∧ (s.confirmed = false ∨ s.requires_reconfirmation = true))) :
    (s.checkpoint agent now).2.1 = s ∧ (s.checkpoint agent now).2.2 = false := by
  rcases hfail with hf | hf | ⟨h4, hf⟩
  · simp [ForgeState.checkpoint, hf]
  · by_cases hactf : s.forge_active = false
    · simp [ForgeState.checkpoint, hactf]
    · simp [ForgeState.checkpoint, hactf, hf]
  · by_cases hactf : s.forge_active = false
    · simp [ForgeState.checkpoint, hactf]
    · by_cases hag : agent = phaseAgent s.phase
      · rcases hf with hc | hr
        · simp [ForgeState.checkpoint, hactf, hag, h4, hc]
        · by_cases hc : s.confirmed = false
          · simp [ForgeState.checkpoint, hactf, hag, h4, hc]
          · simp [ForgeState.checkpoint, hactf, hag, h4, hc, hr]
      · simp [ForgeState.checkpoint, hactf, hag]

theorem checkpoint_failure_no_mutation_witness :
    (sampleExecState.checkpoint "forge:execute-agent" 7).2.1 = sampleExecState ∧
    (sampleExecState.checkpoint "forge:execute-agent" 7).2.2 = false :=
  checkpoint_failure_no_mutation sampleExecState "forge:execute-agent" 7
    (Or.inr (Or.inr ⟨rfl, Or.inl rfl⟩))

/-- C5: on a confirmed state with a stored design fingerprint, `set_design_hash`
with content whose fingerprint differs sets `requires_reconfirmation`, clears
`confirmed` and reports `changed = true`; calling it again with content whose
fingerprint equals the now-stored one leaves both flags untouched and reports
`changed = false`. -/
theorem design_hash_reconfirmation (hashFn : String → String) (s : ForgeState)
    (c1 c2 h0 : String) (hconf : s.confirmed = true) (hhash : s.design_hash = some h0)
    (hne : h0 ≠ "") (hdiff : hashFn c1 ≠ h0) (heq : hashFn c2 = hashFn c1) :
    (ForgeState.set_design_hash hashFn s c1).1.changed = true ∧
    ((ForgeState.set_design_hash hashFn s c1).2.1).requires_reconfirmation = true ∧
    ((ForgeState.set_design_hash hashFn s c1).2.1).confirmed = false ∧
    (ForgeState.set_design_hash hashFn
      ((ForgeState.set_design_hash hashFn s c1).2.1) c2).1.changed = false ∧
    ((ForgeState.set_design_hash hashFn
      ((ForgeState.set_design_hash hashFn s c1).2.1) c2).2.1).requires_reconfirmation =
      ((ForgeState.set_design_hash hashFn s c1).2.1).requires_reconfirmation ∧
    ((ForgeState.set_design_hash hashFn
      ((ForgeState.set_design_hash hashFn s c1).2.1) c2).2.1).confirmed =
      ((ForgeState.set_design_hash hashFn s c1).2.1).confirmed := by
  have hsym : h0 ≠ hashFn c1 := fun hh => hdiff hh.symm
  by_cases he : hashFn c1 = "" <;>
    simp [ForgeState.set_design_hash, hhash, hne, hconf, hsym, heq, he]

theorem design_hash_reconfirmation_witness :
    (ForgeState.set_design_hash (fun str => String.append "h" str)
      sampleConfirmedState "x").1.changed = true ∧
    ((ForgeState.set_design_hash (fun str => String.append "h" str)
      sampleConfirmedState "x").2.1).requires_reconfirmation = true ∧
    ((ForgeState.set_design_hash (fun str => String.append "h" str)
      sampleConfirmedState "x").2.1).confirmed = false ∧
    (ForgeState.set_design_hash (fun str => String.append "h" str)
      ((ForgeState.set_design_hash (fun str => String.append "h" str)
        sampleConfirmedState "x").2.1) "x").1.changed = false ∧
    ((ForgeState.set_design_hash (fun str => String.append "h" str)
      ((ForgeState.set_design_hash (fun str => String.append "h" str)
        sampleConfirmedState "x").2.1) "x").2.1).requires_reconfirmation =
      ((ForgeState.set_design_hash (fun str => String.append "h" str)
        sampleConfirmedState "x").2.1).requires_reconfirmation ∧
    ((ForgeState.set_design_hash (fun str => String.append "h" str)
      ((ForgeState.set_design_hash (fun str => String.append "h" str)
        sampleConfirmedState "x").2.1) "x").2.1).confirmed =
      ((ForgeState.set_design_hash (fun str => String.append "h" str)
        sampleConfirmedState "x").2.1).confirmed :=
  design_hash_reconfirmation (fun str => String.append "h" str) sampleConfirmedState
    "x" "x" "stored" rfl rfl (by decide) (by decide) rfl

/-- C3: for every node in the `AGENT_REQUIRED` allow-list, `mark-validation
passed` without the from-hook flag does not set `passed`: the node's status
becomes `claimed` with `verified_by = manual_attempt`, and the command exits 1. -/
theorem mark_validation_anti_bypass (st : WizState) (name now : String)
    (h : name ∈ AGENT_REQUIRED) :
    (cmd_mark_validation st name "passed" false now).1 = 1 ∧
    markedStatus (cmd_mark_validation st name "passed" false now).2 name = some "claimed" ∧
    markedVerifiedBy (cmd_mark_validation st name "passed" false now).2 name =
      some "manual_attempt" ∧
    markedStatus (cmd_mark_validation st name "passed" false now).2 name ≠ some "passed" := by
  cases hget : alistGet st.validations name with
  | none =>
      simp [cmd_mark_validation, hget, h, markedStatus, markedVerifiedBy,
        alistGet_alistSet_same, add_history]
  | some v0 =>
      simp [cmd_mark_validation, hget, h, markedStatus, markedVerifiedBy,
        alistGet_alistSet_same, add_history]

theorem mark_validation_anti_bypass_witness :
    (cmd_mark_validation skillCreationInit "functional_test" "passed" false "t").1 = 1 ∧
    markedStatus (cmd_mark_validation skillCreationInit "functional_test" "passed" false "t").2
      "functional_test" = some "claimed" ∧
    markedVerifiedBy (cmd_mark_validation skillCreationInit "functional_test" "passed" false "t").2
      "functional_test" = some "manual_attempt" ∧
    markedStatus (cmd_mark_validation skillCreationInit "functional_test" "passed" false "t").2
      "functional_test" ≠ some "passed" :=
  mark_validation_anti_bypass skillCreationInit "functional_test" "t" (by decide)

/-- C4 (code bug): `cmd_verify_protocol` lets a required node whose status is
`claimed` fall through its pending/executed/failed classification, so a
workflow whose required node `form_selection_audit` was downgraded to
`claimed` by the anti-bypass rule is nevertheless reported satisfied
(exit 0, empty missing and failed lists) — contradicting the rule that only
status exactly `passed` satisfies a required node. -/
theorem verify_protocol_claimed_bug :
    markedStatus claimedBypassState "form_selection_audit" = some "claimed" ∧
    markedRequired claimedBypassState "form_selection_audit" = some true ∧
    cmd_verify_protocol claimedBypassState = (0, [], []) :=
  ⟨rfl, rfl, rfl⟩

theorem checkDeps_foldl (st : WizState) (deps : List String) (acc : List (String × String)) :
    deps.foldl
      (fun acc dep =>
        let dep_status := depStatus st dep
        if dep_status ≠ "passed" then acc ++ [(dep, dep_status)] else acc) acc =
    acc ++ deps.filterMap
      (fun dep =>
        if depStatus st dep = "passed" then none
        else some (dep, depStatus st dep)) := by
  induction deps generalizing acc with
  | nil => simp
  | cons d rest ih =>
      rw [List.foldl_cons, ih]
      by_cases hd : depStatus st d = "passed"
      · simp [hd]
      · simp [hd]

/-- C7: for a validation node with a non-empty dependency list,
`cmd_check_deps` exits 0 (allowing) iff every listed dependency's status is
exactly `passed` — `pending`, `executed`, `failed`, `claimed` and absent nodes
(which read as `pending`) all count as unsatisfied — and otherwise it exits 2
returning each unsatisfied dependency paired with its current status. -/
theorem check_dependencies_iff (st : WizState) (name : String) (v : ValidationSt)
    (hv : alistGet st.validations name = some v) (hne : v.dependencies ≠ []) :
    ((cmd_check_deps st name).1 = 0 ↔
      v.dependencies.all (fun d => depStatus st d == "passed") = true) ∧
    (v.dependencies.all (fun d => depStatus st d == "passed") = false →
      cmd_check_deps st name =
        (2, v.dependencies.filterMap
          (fun d =>
            if depStatus st d = "passed" then none
            else some (d, depStatus st d)))) := by
  have hnil : (v.dependencies.filterMap
      (fun d =>
        if depStatus st d = "passed" then none
        else some (d, depStatus st d)) = []) ↔
      v.dependencies.all (fun d => depStatus st d == "passed") = true := by
    rw [List.filterMap_eq_nil_iff, List.all_eq_true]
    constructor
    · intro hh d hd
      have hfd := hh d hd
      by_cases hp : depStatus st d = "passed"
      · simp [hp]
      · simp [hp] at hfd
    · intro hh d hd
      have hfd := hh d hd
      simp at hfd
      simp [hfd]
  have hcmd : cmd_check_deps st name =
      if (v.dependencies.filterMap
        (fun d =>
          if depStatus st d = "passed" then none
          else some (d, depStatus st d))) = [] then (0, [])
      else (2, v.dependencies.filterMap
        (fun d =>
          if depStatus st d = "passed" then none
          else some (d, depStatus st d))) := by
    simp only [cmd_check_deps, hv]
    rw [if_neg hne]
    rw [checkDeps_foldl st v.dependencies []]
    simp
  constructor
  · rw [hcmd]
    by_cases hF : (v.dependencies.filterMap
        (fun d =>
          if depStatus st d = "passed" then none
          else some (d, depStatus st d))) = []
    · simp [hF, hnil.mp hF]
    · simp only [if_neg hF]
      constructor
      · intro hh
        exact absurd hh (by decide)
      · intro hall
        exact absurd (hnil.mpr hall) hF
  · intro hallf
    have hF : (v.dependencies.filterMap
        (fun d =>
          if depStatus st d = "passed" then none
          else some (d, depStatus st d))) ≠ [] := by
      intro hFe
      rw [hnil.mp hFe] at hallf
      exact absurd hallf (by decide)
    rw [hcmd, if_neg hF]

theorem check_dependencies_iff_witness :
    ((cmd_check_deps skillCreationInit "functional_test").1 = 0 ↔
      functionalTestInitVal.dependencies.all
        (fun d => depStatus skillCreationInit d == "passed") = true) ∧
    (functionalTestInitVal.dependencies.all
        (fun d => depStatus skillCreationInit d == "passed") = false →
      cmd_check_deps skillCreationInit "functional_test" =
        (2, functionalTestInitVal.dependencies.filterMap
          (fun d =>
            if depStatus skillCreationInit d = "passed" then none
            else some (d, depStatus skillCreationInit d)))) :=
  check_dependencies_iff skillCreationInit "functional_test" functionalTestInitVal
    rfl (by decide)

theorem stackTypes_push (stack : List WorkflowStackEntry) (t now : String) :
    stackTypes (pushWorkflow stack t now) = t :: stackTypes stack := by
  cases stack <;> simp [pushWorkflow, stackTypes, newStackEntry]

theorem stackTypes_pushMany (types : List String) (now : String)
    (stack : List WorkflowStackEntry) :
    stackTypes (types.foldl (fun st t => pushWorkflow st t now) stack) =
      types.reverse ++ stackTypes stack := by
  induction types generalizing stack with
  | nil => simp
  | cons t rest ih => simp [ih, stackTypes_push]

theorem popMany_drain (n : Nat) (stack : List WorkflowStackEntry)
    (h : stack.length = n) : popMany n stack = (stackTypes stack, []) := by
  induction n generalizing stack with
  | zero =>
      rw [List.length_eq_zero] at h
      subst h
      rfl
  | succ n ih =>
      cases stack with
      | nil => simp at h
      | cons top rest =>
          cases rest with
          | nil =>
              have hn : n = 0 := by
                simp at h
                omega
              subst hn
              rfl
          | cons parent rest1 =>
              have hlen : ({ parent with suspended := false } :: rest1).length = n := by
                simp at h ⊢
                omega
              have hres := ih _ hlen
              simp [popMany, popWorkflow, hres, stackTypes]

/-- C8: a sequence of N pushes followed by N pops returns the stack to empty,
the workflow types observed by the pops are the exact reverse of the push
order, and whenever a pop leaves the stack non-empty the new top entry's
`suspended` flag is false. -/
theorem workflow_stack_lifo (types : List String) (now : String)
    (stack : List WorkflowStackEntry) (popped : WorkflowStackEntry)
    (res : Option String) (parent : WorkflowStackEntry) (rest : List WorkflowStackEntry)
    (hpop : popWorkflow stack = some (popped, res, parent :: rest)) :
    popMany types.length (pushMany types now) = (types.reverse, []) ∧
    parent.suspended = false := by
  constructor
  · have htypes : stackTypes (pushMany types now) = types.reverse := by
      unfold pushMany
      simpa [stackTypes] using stackTypes_pushMany types now []
    have hlen : (pushMany types now).length = types.length := by
      have hc := congrArg List.length htypes
      simpa [stackTypes] using hc
    rw [← hlen, popMany_drain _ _ rfl, htypes]
  · cases stack with
    | nil => simp [popWorkflow] at hpop
    | cons top rest0 =>
        cases rest0 with
        | nil => simp [popWorkflow] at hpop
        | cons parent0 rest1 =>
            simp [popWorkflow] at hpop
            obtain ⟨h1, h2, h3, h4⟩ := hpop
            rw [← h3]

theorem workflow_stack_lifo_witness :
    popMany 2 (pushMany ["alpha", "beta"] "t0") = (["beta", "alpha"], []) ∧
    ({ sampleEntryB with suspended := false } : WorkflowStackEntry).suspended = false :=
  workflow_stack_lifo ["alpha", "beta"] "t0" [sampleEntryA, sampleEntryB] sampleEntryA
    sampleEntryB.resume_phase { sampleEntryB with suspended := false } [] rfl
